import Mathlib

/-!
Shallow embedding of the CThreadPoolEx worker-thread-pool header
(CThreadPoolEx.hpp): the per-thread dispatch loop CThreadPoolEx::ThreadProc,
the lambda executor CThreadLambdaExecutorTraits::Execute, the thread-creation
hook ThreadProcHookThreadTraits::CreateThread, and the entry-point redirection
CThreadProcHook::WorkerThreadProc.

A single worker thread's interaction with shared state (the completion port
m_hRequestQueue and the atomic shutdown flag m_bShutdown) is modelled by an
oracle: each loop iteration consumes one LoopInput holding the result of
GetQueuedCompletionStatus and the value that InterlockedExchange(&m_bShutdown, FALSE)
reads (and clears) if a shutdown sentinel is observed in that iteration.
The observable behaviour of the thread is its trace of ThreadEvents, its exit
status (none when the thread is still blocked in the infinite wait), and the
pool fields it wrote.
-/

/-- A value carried in the lpOverlapped slot of GetQueuedCompletionStatus.
ATLS_POOL_SHUTDOWN is a distinguished pointer value compared by identity and
never dereferenced; any other pointer is modelled by its address. -/
inductive OverlappedPtr where
  | shutdownSentinel
  | ptr (addr : Nat)
deriving DecidableEq, Repr

/-- Result of one call to GetQueuedCompletionStatus. On failure (bStatus FALSE)
the out-parameters carry garbage; the garbage lpOverlapped value is kept in the
model to express that it is never inspected. -/
inductive DequeueResult where
  | failed (garbage : OverlappedPtr)
  | delivered (completionKey : Nat) (overlapped : OverlappedPtr)
deriving DecidableEq, Repr

/-- The environment oracle for one dispatch-loop iteration: the dequeue result
and, in case a sentinel is observed, the value InterlockedExchange(&m_bShutdown, FALSE)
atomically reads and clears (shared with other threads, hence an oracle). -/
structure LoopInput where
  dequeue : DequeueResult
  shutdownFlag : Bool
deriving DecidableEq, Repr

/-- Observable events of CThreadPoolEx::ThreadProc, in program order. -/
inductive ThreadEvent where
  /-- theWorker.Initialize(m_pvWorkerParam) was called and returned ok. -/
  | Initialize (config : Nat) (ok : Bool)
  /-- SetEvent(m_hThreadEvent) on the handle with the given id. -/
  | SetEvent (handle : Nat)
  /-- InterlockedExchange(&m_bShutdown, FALSE) returned oldValue. -/
  | ClearShutdownFlag (oldValue : Bool)
  /-- theWorker.Execute(request, m_pvWorkerParam, pOverlapped). -/
  | Execute (completionKey : Nat) (config : Nat) (overlapped : OverlappedPtr)
  /-- theWorker.Terminate(m_pvWorkerParam). -/
  | Terminate (config : Nat)
  /-- m_dwThreadEventId = GetCurrentThreadId(). -/
  | StoreThreadEventId (tid : Nat)
deriving DecidableEq, Repr

/-- How the while(TRUE) loop in ThreadProc ends on a given finite oracle. -/
inductive LoopExit where
  /-- break because bStatus was FALSE. -/
  | waitFailed
  /-- break because a sentinel arrived and the shutdown flag was still set. -/
  | shutdownWon
  /-- the oracle is exhausted and the thread is blocked in the infinite wait. -/
  | blocked
deriving DecidableEq, Repr

/-- The per-pool fields of CThreadPoolEx that ThreadProc reads or writes. -/
structure PoolState where
  hThreadEvent : Nat
  pvWorkerParam : Nat
  dwThreadEventId : Option Nat
deriving DecidableEq, Repr

/-- The while(TRUE) body of CThreadPoolEx::ThreadProc: request the queue
status; if (!bStatus) break; if pOverlapped == ATLS_POOL_SHUTDOWN then
InterlockedExchange(&m_bShutdown, FALSE) and break only if the old value was
set; otherwise Execute the completion key as a request. Returns the events of
the loop and how it exited. -/
def CThreadPoolEx.dispatchLoop (config : Nat) : List LoopInput → List ThreadEvent × LoopExit
  | [] => ([], LoopExit.blocked)
  | i :: rest =>
    match i.dequeue with
    | DequeueResult.failed _ => ([], LoopExit.waitFailed)
    | DequeueResult.delivered key ov =>
      if ov = OverlappedPtr.shutdownSentinel then
        if i.shutdownFlag then
          ([ThreadEvent.ClearShutdownFlag true], LoopExit.shutdownWon)
        else
          (ThreadEvent.ClearShutdownFlag false :: (CThreadPoolEx.dispatchLoop config rest).1,
           (CThreadPoolEx.dispatchLoop config rest).2)
      else
        (ThreadEvent.Execute key config ov :: (CThreadPoolEx.dispatchLoop config rest).1,
         (CThreadPoolEx.dispatchLoop config rest).2)

/-- Events that follow the loop: on any break, theWorker.Terminate, then record
the thread id, then signal m_hThreadEvent; if the loop never exits, nothing. -/
def exitTail (pool : PoolState) (tid : Nat) : LoopExit → List ThreadEvent
  | LoopExit.blocked => []
  | _ => [ThreadEvent.Terminate pool.pvWorkerParam,
          ThreadEvent.StoreThreadEventId tid,
          ThreadEvent.SetEvent pool.hThreadEvent]

/-- Return value of ThreadProc: 0 after any loop break; none if blocked. -/
def exitStatusOf : LoopExit → Option Nat
  | LoopExit.blocked => none
  | _ => some 0

/-- Pool fields after the loop: m_dwThreadEventId is written on any break. -/
def finalPoolOf (pool : PoolState) (tid : Nat) : LoopExit → PoolState
  | LoopExit.blocked => pool
  | _ => { pool with dwThreadEventId := some tid }

/-- CThreadPoolEx::ThreadProc. `initResult` is the value returned by
theWorker.Initialize(m_pvWorkerParam); if FALSE the function returns 1 at
once. Otherwise it signals m_hThreadEvent (readiness), runs the dispatch
loop, calls theWorker.Terminate, records the thread id in m_dwThreadEventId,
signals m_hThreadEvent again (completion) and returns 0. The result is the
event trace, the exit status (none while blocked), and the final pool state. -/
def CThreadPoolEx.ThreadProc (pool : PoolState) (tid : Nat) (initResult : Bool)
    (inputs : List LoopInput) : List ThreadEvent × Option Nat × PoolState :=
  if initResult then
    (ThreadEvent.Initialize pool.pvWorkerParam true ::
       ThreadEvent.SetEvent pool.hThreadEvent ::
       ((CThreadPoolEx.dispatchLoop pool.pvWorkerParam inputs).1 ++
         exitTail pool tid (CThreadPoolEx.dispatchLoop pool.pvWorkerParam inputs).2),
     exitStatusOf (CThreadPoolEx.dispatchLoop pool.pvWorkerParam inputs).2,
     finalPoolOf pool tid (CThreadPoolEx.dispatchLoop pool.pvWorkerParam inputs).2)
  else
    ([ThreadEvent.Initialize pool.pvWorkerParam false], some 1, pool)

/-- The event trace of one run of ThreadProc. -/
def threadTrace (pool : PoolState) (tid : Nat) (initResult : Bool)
    (inputs : List LoopInput) : List ThreadEvent :=
  (CThreadPoolEx.ThreadProc pool tid initResult inputs).1

/-- The exit status of one run of ThreadProc. -/
def threadExitStatus (pool : PoolState) (tid : Nat) (initResult : Bool)
    (inputs : List LoopInput) : Option Nat :=
  (CThreadPoolEx.ThreadProc pool tid initResult inputs).2.1

/-- The final pool state of one run of ThreadProc. -/
def threadFinalPool (pool : PoolState) (tid : Nat) (initResult : Bool)
    (inputs : List LoopInput) : PoolState :=
  (CThreadPoolEx.ThreadProc pool tid initResult inputs).2.2

/-- Recognizer for Execute events. -/
def isExecuteEv : ThreadEvent → Bool
  | ThreadEvent.Execute _ _ _ => true
  | _ => false

/-- Recognizer for Terminate events. -/
def isTerminateEv : ThreadEvent → Bool
  | ThreadEvent.Terminate _ => true
  | _ => false

/-- Recognizer for SetEvent events. -/
def isSetEventEv : ThreadEvent → Bool
  | ThreadEvent.SetEvent _ => true
  | _ => false

/-- Recognizer for StoreThreadEventId events. -/
def isStoreIdEv : ThreadEvent → Bool
  | ThreadEvent.StoreThreadEventId _ => true
  | _ => false

/-- Recognizer for the events the loop body can emit. -/
def isLoopEv : ThreadEvent → Bool
  | ThreadEvent.Execute _ _ _ => true
  | ThreadEvent.ClearShutdownFlag _ => true
  | _ => false

/-- A concrete pool state used for witnesses and counterexamples. -/
def pool0 : PoolState :=
  { hThreadEvent := 10, pvWorkerParam := 3, dwThreadEventId := none }

/-- Actions of an Executor on a dequeued request, per the ownership contract
spelled out in the ThreadProc comment: free the request when complete, or
queue it again when it needs further processing. -/
inductive ExecAction where
  | invoke (request : Nat)
  | deallocate (request : Nat)
  | resubmit (request : Nat)
deriving DecidableEq, Repr

/-- CThreadLambdaExecutorTraits::Execute: the whole body is
request->Invoke(); the request is neither freed nor requeued. -/
def CThreadLambdaExecutorTraits.Execute (request : Nat) (config : Nat)
    (overlapped : OverlappedPtr) : List ExecAction :=
  [ExecAction.invoke request]

/-- A thread entry point as passed to a thread-creation routine:
TThreadProcHook::WorkerThreadProc or any other function (by address). -/
inductive EntryPoint where
  | workerThreadProc
  | requested (addr : Nat)
deriving DecidableEq, Repr

/-- The argument record the underlying TThreadTraits::CreateThread receives. -/
structure CreateThreadCall where
  lpsa : Option Nat
  dwStackSize : Nat
  entry : EntryPoint
  pvParam : Option Nat
  dwCreationFlags : Nat
  pdwThreadId : Option Nat
deriving DecidableEq, Repr

/-- ThreadProcHookThreadTraits::CreateThread: forwards its arguments to
TThreadTraits::CreateThread with the provided worker-thread proc replaced by
TThreadProcHook::WorkerThreadProc. Modelled as the argument record handed to
the underlying collaborator. -/
def ThreadProcHookThreadTraits.CreateThread (lpsa : Option Nat) (dwStackSize : Nat)
    (pfnThreadProc : EntryPoint) (pvParam : Option Nat) (dwCreationFlags : Nat)
    (pdwThreadId : Option Nat) : CreateThreadCall :=
  { lpsa := lpsa, dwStackSize := dwStackSize, entry := EntryPoint.workerThreadProc,
    pvParam := pvParam, dwCreationFlags := dwCreationFlags, pdwThreadId := pdwThreadId }

/-- The runtime object behind the LPVOID handed to WorkerThreadProc, after the
reinterpret_cast to IThreadPoolConfig*. Its dynamic type either also derives
CThreadProcHook (a CThreadPoolEx instance, whose virtual ThreadProc returns the
given status) or does not. -/
inductive ConfigObject where
  | hookPool (threadProcResult : Nat)
  | plainConfig (id : Nat)
deriving DecidableEq, Repr

/-- dynamic_cast<CThreadProcHook*>(pConfig): non-null exactly when the dynamic
type derives CThreadProcHook. -/
def dynamicCastToHook : ConfigObject → Option Nat
  | ConfigObject.hookPool r => some r
  | ConfigObject.plainConfig _ => none

/-- Outcome of CThreadProcHook::WorkerThreadProc: either the DWORD returned by
pThis->ThreadProc(), or the dereference of a null pThis. -/
inductive ProcOutcome where
  | returns (status : Nat)
  | nullDereference
deriving DecidableEq, Repr

/-- CThreadProcHook::WorkerThreadProc: reinterpret_cast pv to
IThreadPoolConfig*, dynamic_cast to CThreadProcHook*, then call
pThis->ThreadProc() with no null check on pThis. -/
def CThreadProcHook.WorkerThreadProc (pv : ConfigObject) : ProcOutcome :=
  match dynamicCastToHook pv with
  | some r => ProcOutcome.returns r
  | none => ProcOutcome.nullDereference

/-- Every event emitted by the loop body is an Execute or a ClearShutdownFlag. -/
theorem dispatchLoop_loopEvents (config : Nat) (inputs : List LoopInput) :
    ∀ e ∈ (CThreadPoolEx.dispatchLoop config inputs).1, isLoopEv e = true := by
  induction inputs with
  | nil => intro e he; simp [CThreadPoolEx.dispatchLoop] at he
  | cons i rest ih =>
    intro e he
    cases hd : i.dequeue with
    | failed g => simp [CThreadPoolEx.dispatchLoop, hd] at he
    | delivered key ov =>
      by_cases hov : ov = OverlappedPtr.shutdownSentinel
      · subst hov
        by_cases hf : i.shutdownFlag = true
        · simp [CThreadPoolEx.dispatchLoop, hd, hf] at he
          subst he; rfl
        · simp [CThreadPoolEx.dispatchLoop, hd, hf] at he
          rcases he with he | he
          · subst he; rfl
          · exact ih e he
      · simp [CThreadPoolEx.dispatchLoop, hd, hov] at he
        rcases he with he | he
        · subst he; rfl
        · exact ih e he

/-- An event satisfying isLoopEv is neither Initialize, Terminate, SetEvent
nor StoreThreadEventId. -/
theorem loopEv_shapes {e : ThreadEvent} (h : isLoopEv e = true) :
    isTerminateEv e = false ∧ isSetEventEv e = false ∧ isStoreIdEv e = false := by
  cases e <;> simp_all [isLoopEv, isTerminateEv, isSetEventEv, isStoreIdEv]

/-- The loop body never emits a Terminate event. -/
theorem dispatchLoop_no_terminate (config : Nat) (inputs : List LoopInput) :
    (CThreadPoolEx.dispatchLoop config inputs).1.countP isTerminateEv = 0 := by
  rw [List.countP_eq_zero]
  intro e he
  exact fun hp => by
    rw [(loopEv_shapes (dispatchLoop_loopEvents config inputs e he)).1] at hp
    exact Bool.false_ne_true hp

/-- In a list of the form xs ++ ys where no element of ys satisfies p, every
index holding an element satisfying p lies inside xs. -/
theorem index_lt_of_none_right {α : Type} (xs ys : List α) (p : α → Bool)
    (hy : ∀ e ∈ ys, p e = false) (i : Nat) (e : α)
    (hi : (xs ++ ys).get? i = some e) (hp : p e = true) : i < xs.length := by
  by_contra h
  push_neg at h
  rw [List.get?_append_right h] at hi
  have hm := List.get?_mem hi
  rw [hy e hm] at hp
  exact Bool.false_ne_true hp

/-- In a list of the form xs ++ ys where no element of xs satisfies p, every
index holding an element satisfying p lies past xs. -/
theorem index_ge_of_none_left {α : Type} (xs ys : List α) (p : α → Bool)
    (hx : ∀ e ∈ xs, p e = false) (i : Nat) (e : α)
    (hi : (xs ++ ys).get? i = some e) (hp : p e = true) : xs.length ≤ i := by
  by_contra h
  push_neg at h
  rw [List.get?_append h] at hi
  have hm := List.get?_mem hi
  rw [hx e hm] at hp
  exact Bool.false_ne_true hp

/-- C2: when the dispatch loop dequeues the shutdown sentinel it
test-and-clears the shutdown flag (the ClearShutdownFlag event records the old
value read and cleared by InterlockedExchange): if the flag was set the loop
exits with the shutdownWon outcome; if the flag was already clear the loop
continues exactly as the loop on the remaining inputs — the sentinel is
consumed, not re-enqueued. -/
theorem sentinel_test_and_clear (config key : Nat) (flag : Bool) (rest : List LoopInput) :
    CThreadPoolEx.dispatchLoop config
        ({ dequeue := DequeueResult.delivered key OverlappedPtr.shutdownSentinel,
           shutdownFlag := flag } :: rest) =
      if flag then ([ThreadEvent.ClearShutdownFlag true], LoopExit.shutdownWon)
      else (ThreadEvent.ClearShutdownFlag false :: (CThreadPoolEx.dispatchLoop config rest).1,
            (CThreadPoolEx.dispatchLoop config rest).2) := by
  cases flag <;> simp [CThreadPoolEx.dispatchLoop]

/-- C5: a failed wait is checked before the sentinel comparison: whatever
garbage payload the failed call left behind (even one equal to the sentinel)
and whatever the flag, the loop exits at once, emitting no ClearShutdownFlag
and no Execute event. -/
theorem wait_failure_checked_first (config : Nat) (garbage : OverlappedPtr) (flag : Bool)
    (rest : List LoopInput) :
    CThreadPoolEx.dispatchLoop config
        ({ dequeue := DequeueResult.failed garbage, shutdownFlag := flag } :: rest) =
      ([], LoopExit.waitFailed) := by
  simp [CThreadPoolEx.dispatchLoop]

/-- C3: when Initialize returns FALSE the thread returns 1 at once — a
non-zero status distinct from the normal exit status 0 — with no Execute and
no Terminate event, and the pool state untouched. -/
theorem init_failure_exits_one (pool : PoolState) (tid : Nat) (inputs : List LoopInput) :
    CThreadPoolEx.ThreadProc pool tid false inputs =
      ([ThreadEvent.Initialize pool.pvWorkerParam false], some 1, pool) ∧
    (threadTrace pool tid false inputs).countP isExecuteEv = 0 ∧
    (threadTrace pool tid false inputs).countP isTerminateEv = 0 ∧
    threadExitStatus pool tid false inputs ≠ some 0 := by
  refine ⟨rfl, ?_, ?_, ?_⟩ <;>
    simp [threadTrace, threadExitStatus, CThreadPoolEx.ThreadProc, isExecuteEv, isTerminateEv]

/-- C4: CThreadLambdaExecutorTraits::Execute at a concrete request only
invokes the stored callable; it neither deallocates nor resubmits the
request, contrary to the ownership contract in the ThreadProc comment. -/
theorem lambdaExecute_never_deallocates :
    CThreadLambdaExecutorTraits.Execute 7 3 (OverlappedPtr.ptr 0) = [ExecAction.invoke 7] ∧
    ExecAction.deallocate 7 ∉ CThreadLambdaExecutorTraits.Execute 7 3 (OverlappedPtr.ptr 0) ∧
    ExecAction.resubmit 7 ∉ CThreadLambdaExecutorTraits.Execute 7 3 (OverlappedPtr.ptr 0) := by
  decide

/-- C8: the thread-creation wrapper ignores the nominally requested entry
point, substituting TThreadProcHook::WorkerThreadProc, and forwards every
other argument unchanged to the underlying thread-creation collaborator. -/
theorem createThread_redirects_entry (lpsa : Option Nat) (ss : Nat) (pfn pfn2 : EntryPoint)
    (pv : Option Nat) (fl : Nat) (tidp : Option Nat) :
    ThreadProcHookThreadTraits.CreateThread lpsa ss pfn pv fl tidp =
      { lpsa := lpsa, dwStackSize := ss, entry := EntryPoint.workerThreadProc,
        pvParam := pv, dwCreationFlags := fl, pdwThreadId := tidp } ∧
    ThreadProcHookThreadTraits.CreateThread lpsa ss pfn pv fl tidp =
      ThreadProcHookThreadTraits.CreateThread lpsa ss pfn2 pv fl tidp :=
  ⟨rfl, rfl⟩

/-- C9: WorkerThreadProc returns the result of pThis->ThreadProc() whenever
its parameter designates an object implementing both IThreadPoolConfig and
CThreadProcHook, and for every other input it reaches the dereference of the
null result of the dynamic_cast. -/
theorem workerThreadProc_requires_hook :
    (∀ r, CThreadProcHook.WorkerThreadProc (ConfigObject.hookPool r) =
        ProcOutcome.returns r) ∧
    (∀ pv : ConfigObject, (∀ r, pv ≠ ConfigObject.hookPool r) →
      CThreadProcHook.WorkerThreadProc pv = ProcOutcome.nullDereference) := by
  constructor
  · intro r; rfl
  · intro pv h
    cases pv with
    | hookPool r => exact absurd rfl (h r)
    | plainConfig n => rfl

/-- C9 witness: a configuration object that does not derive CThreadProcHook
reaches the null dereference. -/
theorem workerThreadProc_requires_hook_witness :
    CThreadProcHook.WorkerThreadProc (ConfigObject.plainConfig 0) =
      ProcOutcome.nullDereference :=
  workerThreadProc_requires_hook.2 (ConfigObject.plainConfig 0)
    (fun r h => ConfigObject.noConfusion h)

/-- C1 counterexample: after a failed wait the thread's exit status equals the
exit status of a normal shutdown exit (both 0), refuting the claim that the
failure status is distinct from the normal shutdown status. -/
theorem waitFailure_status_not_distinct :
    threadExitStatus pool0 5 true
        [{ dequeue := DequeueResult.failed (OverlappedPtr.ptr 0), shutdownFlag := false }] =
      threadExitStatus pool0 5 true
        [{ dequeue := DequeueResult.delivered 0 OverlappedPtr.shutdownSentinel,
           shutdownFlag := true }] ∧
    threadExitStatus pool0 5 true
        [{ dequeue := DequeueResult.failed (OverlappedPtr.ptr 0), shutdownFlag := false }] =
      some 0 := by
  decide

/-- C1 (amended): if GetQueuedCompletionStatus fails, the thread exits its
loop, runs Terminate exactly once, and returns 0 — the same status as a
normal shutdown exit. -/
theorem waitFailure_terminate_once_same_status (pool : PoolState) (tid : Nat)
    (inputs : List LoopInput)
    (h : (CThreadPoolEx.dispatchLoop pool.pvWorkerParam inputs).2 = LoopExit.waitFailed) :
    (threadTrace pool tid true inputs).countP isTerminateEv = 1 ∧
    threadExitStatus pool tid true inputs = some 0 ∧
    threadExitStatus pool tid true inputs =
      threadExitStatus pool tid true
        [{ dequeue := DequeueResult.delivered 0 OverlappedPtr.shutdownSentinel,
           shutdownFlag := true }] := by
  refine ⟨?_, ?_, ?_⟩
  · simp [threadTrace, CThreadPoolEx.ThreadProc, h, exitTail, List.countP_append,
      List.countP_cons, isTerminateEv, dispatchLoop_no_terminate]
  · simp [threadExitStatus, CThreadPoolEx.ThreadProc, h, exitStatusOf]
  · simp [threadExitStatus, CThreadPoolEx.ThreadProc, h, exitStatusOf,
      CThreadPoolEx.dispatchLoop]

/-- C1 witness: a concrete failed wait satisfies the hypothesis and the
amended conclusion. -/
theorem waitFailure_terminate_once_same_status_witness :
    (CThreadPoolEx.dispatchLoop pool0.pvWorkerParam
        [{ dequeue := DequeueResult.failed (OverlappedPtr.ptr 0), shutdownFlag := false }]).2 =
      LoopExit.waitFailed ∧
    ((threadTrace pool0 5 true
        [{ dequeue := DequeueResult.failed (OverlappedPtr.ptr 0), shutdownFlag := false }]).countP
          isTerminateEv = 1 ∧
      threadExitStatus pool0 5 true
        [{ dequeue := DequeueResult.failed (OverlappedPtr.ptr 0), shutdownFlag := false }] =
          some 0 ∧
      threadExitStatus pool0 5 true
        [{ dequeue := DequeueResult.failed (OverlappedPtr.ptr 0), shutdownFlag := false }] =
        threadExitStatus pool0 5 true
          [{ dequeue := DequeueResult.delivered 0 OverlappedPtr.shutdownSentinel,
             shutdownFlag := true }]) :=
  ⟨by decide, waitFailure_terminate_once_same_status pool0 5 _ (by decide)⟩

/-- The trace of a run whose Initialize succeeded, split at the loop exit. -/
theorem threadTrace_true_split (pool : PoolState) (tid : Nat) (inputs : List LoopInput) :
    threadTrace pool tid true inputs =
      (ThreadEvent.Initialize pool.pvWorkerParam true ::
        ThreadEvent.SetEvent pool.hThreadEvent ::
        (CThreadPoolEx.dispatchLoop pool.pvWorkerParam inputs).1) ++
      exitTail pool tid (CThreadPoolEx.dispatchLoop pool.pvWorkerParam inputs).2 := by
  simp [threadTrace, CThreadPoolEx.ThreadProc]

/-- No event after the loop is an Execute event. -/
theorem exitTail_no_execute (pool : PoolState) (tid : Nat) (x : LoopExit) :
    ∀ e ∈ exitTail pool tid x, isExecuteEv e = false := by
  intro e he
  cases x with
  | blocked => simp [exitTail] at he
  | waitFailed =>
    rcases (by simpa [exitTail] using he : _ ∨ _ ∨ _) with h | h | h <;> subst h <;> rfl
  | shutdownWon =>
    rcases (by simpa [exitTail] using he : _ ∨ _ ∨ _) with h | h | h <;> subst h <;> rfl

/-- No event up to and including the loop is a Terminate event. -/
theorem head_no_terminate (pool : PoolState) (tid : Nat) (inputs : List LoopInput) :
    ∀ e ∈ (ThreadEvent.Initialize pool.pvWorkerParam true ::
        ThreadEvent.SetEvent pool.hThreadEvent ::
        (CThreadPoolEx.dispatchLoop pool.pvWorkerParam inputs).1),
      isTerminateEv e = false := by
  intro e he
  rcases List.mem_cons.mp he with h | he2
  · subst h; rfl
  · rcases List.mem_cons.mp he2 with h | he3
    · subst h; rfl
    · exact (loopEv_shapes (dispatchLoop_loopEvents pool.pvWorkerParam inputs e he3)).1

/-- No event up to and including the loop is a StoreThreadEventId event. -/
theorem head_no_store (pool : PoolState) (tid : Nat) (inputs : List LoopInput) :
    ∀ e ∈ (ThreadEvent.Initialize pool.pvWorkerParam true ::
        ThreadEvent.SetEvent pool.hThreadEvent ::
        (CThreadPoolEx.dispatchLoop pool.pvWorkerParam inputs).1),
      isStoreIdEv e = false := by
  intro e he
  rcases List.mem_cons.mp he with h | he2
  · subst h; rfl
  · rcases List.mem_cons.mp he2 with h | he3
    · subst h; rfl
    · exact (loopEv_shapes (dispatchLoop_loopEvents pool.pvWorkerParam inputs e he3)).2.2

/-- C6: in every run of ThreadProc the first event is the Initialize call,
every Execute event lies strictly after it, every Execute event lies strictly
before every Terminate event, and no Terminate event exists when Initialize
returned failure. -/
theorem lifecycle_ordering (pool : PoolState) (tid : Nat) (initResult : Bool)
    (inputs : List LoopInput) :
    (threadTrace pool tid initResult inputs).get? 0 =
      some (ThreadEvent.Initialize pool.pvWorkerParam initResult) ∧
    (∀ i e, (threadTrace pool tid initResult inputs).get? i = some e →
      isExecuteEv e = true → 0 < i) ∧
    (∀ i j e f, (threadTrace pool tid initResult inputs).get? i = some e →
      isExecuteEv e = true →
      (threadTrace pool tid initResult inputs).get? j = some f →
      isTerminateEv f = true → i < j) ∧
    (initResult = false →
      (threadTrace pool tid initResult inputs).countP isTerminateEv = 0) := by
  cases initResult with
  | false =>
    refine ⟨rfl, ?_, ?_, ?_⟩
    · intro i e hi hp
      cases i with
      | zero =>
        have he : ThreadEvent.Initialize pool.pvWorkerParam false = e := Option.some.inj hi
        rw [← he] at hp
        exact absurd hp (by simp [isExecuteEv])
      | succ n => exact Nat.succ_pos n
    · intro i j e f hi hpe hj hqf
      cases j with
      | zero =>
        have he : ThreadEvent.Initialize pool.pvWorkerParam false = f := Option.some.inj hj
        rw [← he] at hqf
        exact absurd hqf (by simp [isTerminateEv])
      | succ n => simp [threadTrace, CThreadPoolEx.ThreadProc] at hj
    · intro _
      simp [threadTrace, CThreadPoolEx.ThreadProc, isTerminateEv]
  | true =>
    refine ⟨rfl, ?_, ?_, ?_⟩
    · intro i e hi hp
      cases i with
      | zero =>
        have he : ThreadEvent.Initialize pool.pvWorkerParam true = e := Option.some.inj hi
        rw [← he] at hp
        exact absurd hp (by simp [isExecuteEv])
      | succ n => exact Nat.succ_pos n
    · intro i j e f hi hpe hj hqf
      rw [threadTrace_true_split] at hi hj
      exact lt_of_lt_of_le
        (index_lt_of_none_right _ _ isExecuteEv (exitTail_no_execute pool tid _) i e hi hpe)
        (index_ge_of_none_left _ _ isTerminateEv (head_no_terminate pool tid inputs) j f hj hqf)
    · intro h
      exact absurd h (by simp)

/-- C6 witness: on a run with one work item and a winning sentinel, the first
event is the successful Initialize call. -/
theorem lifecycle_ordering_witness :
    (threadTrace pool0 5 true
        [{ dequeue := DequeueResult.delivered 7 (OverlappedPtr.ptr 4), shutdownFlag := false },
         { dequeue := DequeueResult.delivered 0 OverlappedPtr.shutdownSentinel,
           shutdownFlag := true }]).get? 0 =
      some (ThreadEvent.Initialize pool0.pvWorkerParam true) :=
  (lifecycle_ordering pool0 5 true
    [{ dequeue := DequeueResult.delivered 7 (OverlappedPtr.ptr 4), shutdownFlag := false },
     { dequeue := DequeueResult.delivered 0 OverlappedPtr.shutdownSentinel,
       shutdownFlag := true }]).1

/-- C7 counterexample: on the initialization-failure exit path the thread
neither records its identity into m_dwThreadEventId nor signals the
completion event; it returns 1 with the pool untouched, refuting the claim
that every exit path performs the Exited bookkeeping. -/
theorem initFailure_no_record_no_signal :
    (threadTrace pool0 5 false []).countP isSetEventEv = 0 ∧
    (threadTrace pool0 5 false []).countP isStoreIdEv = 0 ∧
    threadFinalPool pool0 5 false [] = pool0 ∧
    threadExitStatus pool0 5 false [] = some 1 := by
  decide

/-- C7 (amended): on the two loop exit paths (normal shutdown and wait
failure) the thread runs Terminate, records its identity into
m_dwThreadEventId, signals the completion event last, and returns 0; on the
initialization-failure path it returns 1 without recording its identity or
signaling the completion event. -/
theorem exited_records_and_signals (pool : PoolState) (tid : Nat) (inputs : List LoopInput)
    (h : (CThreadPoolEx.dispatchLoop pool.pvWorkerParam inputs).2 ≠ LoopExit.blocked) :
    threadTrace pool tid true inputs =
      (ThreadEvent.Initialize pool.pvWorkerParam true ::
        ThreadEvent.SetEvent pool.hThreadEvent ::
        (CThreadPoolEx.dispatchLoop pool.pvWorkerParam inputs).1) ++
      [ThreadEvent.Terminate pool.pvWorkerParam, ThreadEvent.StoreThreadEventId tid,
       ThreadEvent.SetEvent pool.hThreadEvent] ∧
    threadExitStatus pool tid true inputs = some 0 ∧
    (threadFinalPool pool tid true inputs).dwThreadEventId = some tid ∧
    threadExitStatus pool tid false inputs = some 1 ∧
    (threadFinalPool pool tid false inputs).dwThreadEventId = pool.dwThreadEventId := by
  cases hx : (CThreadPoolEx.dispatchLoop pool.pvWorkerParam inputs).2 with
  | blocked => exact absurd hx h
  | waitFailed =>
    refine ⟨?_, ?_, ?_, rfl, rfl⟩ <;>
      simp [threadTrace, threadExitStatus, threadFinalPool, CThreadPoolEx.ThreadProc, hx,
        exitTail, exitStatusOf, finalPoolOf]
  | shutdownWon =>
    refine ⟨?_, ?_, ?_, rfl, rfl⟩ <;>
      simp [threadTrace, threadExitStatus, threadFinalPool, CThreadPoolEx.ThreadProc, hx,
        exitTail, exitStatusOf, finalPoolOf]

/-- C7 witness: a concrete winning-sentinel run exits the loop and returns 0
with the identity recorded. -/
theorem exited_records_and_signals_witness :
    (CThreadPoolEx.dispatchLoop pool0.pvWorkerParam
        [{ dequeue := DequeueResult.delivered 0 OverlappedPtr.shutdownSentinel,
           shutdownFlag := true }]).2 ≠ LoopExit.blocked ∧
    (threadFinalPool pool0 5 true
        [{ dequeue := DequeueResult.delivered 0 OverlappedPtr.shutdownSentinel,
           shutdownFlag := true }]).dwThreadEventId = some 5 :=
  ⟨by decide,
   (exited_records_and_signals pool0 5
     [{ dequeue := DequeueResult.delivered 0 OverlappedPtr.shutdownSentinel,
        shutdownFlag := true }] (by decide)).2.2.1⟩

/-- C10: every SetEvent in a ThreadProc trace signals the one per-pool handle
m_hThreadEvent (there are no two distinct per-thread events); the readiness
signal sits at position 1, before any StoreThreadEventId; and when the loop
exits, the trace ends with StoreThreadEventId immediately followed by the
completion SetEvent — so only the completion signal is preceded by recording
the thread identifier. -/
theorem signals_share_pool_event (pool : PoolState) (tid : Nat) (initResult : Bool)
    (inputs : List LoopInput)
    (h : (CThreadPoolEx.dispatchLoop pool.pvWorkerParam inputs).2 ≠ LoopExit.blocked) :
    (∀ hdl, ThreadEvent.SetEvent hdl ∈ threadTrace pool tid initResult inputs →
      hdl = pool.hThreadEvent) ∧
    (threadTrace pool tid true inputs).get? 1 =
      some (ThreadEvent.SetEvent pool.hThreadEvent) ∧
    (∀ i e, (threadTrace pool tid initResult inputs).get? i = some e →
      isStoreIdEv e = true → 1 < i) ∧
    (threadTrace pool tid true inputs).reverse.get? 0 =
      some (ThreadEvent.SetEvent pool.hThreadEvent) ∧
    (threadTrace pool tid true inputs).reverse.get? 1 =
      some (ThreadEvent.StoreThreadEventId tid) := by
  refine ⟨?_, ?_, ?_, ?_, ?_⟩
  · intro hdl hmem
    cases initResult with
    | false =>
      simp [threadTrace, CThreadPoolEx.ThreadProc] at hmem
    | true =>
      rw [threadTrace_true_split] at hmem
      rcases List.mem_append.mp hmem with hm | hm
      · rcases List.mem_cons.mp hm with hc | hm2
        · exact absurd hc (by simp)
        · rcases List.mem_cons.mp hm2 with hc | hm3
          · exact (ThreadEvent.SetEvent.inj hc)
          · have := (loopEv_shapes (dispatchLoop_loopEvents pool.pvWorkerParam inputs _ hm3)).2.1
            simp [isSetEventEv] at this
      · cases hy : (CThreadPoolEx.dispatchLoop pool.pvWorkerParam inputs).2 with
        | blocked => rw [hy] at hm; simp [exitTail] at hm
        | waitFailed =>
          rw [hy] at hm
          simpa [exitTail] using hm
        | shutdownWon =>
          rw [hy] at hm
          simpa [exitTail] using hm
  · rfl
  · intro i e hi hp
    cases initResult with
    | false =>
      cases i with
      | zero =>
        have he : ThreadEvent.Initialize pool.pvWorkerParam false = e := Option.some.inj hi
        rw [← he] at hp
        exact absurd hp (by simp [isStoreIdEv])
      | succ n => simp [threadTrace, CThreadPoolEx.ThreadProc] at hi
    | true =>
      rw [threadTrace_true_split] at hi
      have hge := index_ge_of_none_left _ _ isStoreIdEv (head_no_store pool tid inputs) i e hi hp
      simp only [List.length_cons] at hge
      omega
  · cases hx : (CThreadPoolEx.dispatchLoop pool.pvWorkerParam inputs).2 with
    | blocked => exact absurd hx h
    | waitFailed =>
      rw [threadTrace_true_split, hx]
      simp [exitTail]
    | shutdownWon =>
      rw [threadTrace_true_split, hx]
      simp [exitTail]
  · cases hx : (CThreadPoolEx.dispatchLoop pool.pvWorkerParam inputs).2 with
    | blocked => exact absurd hx h
    | waitFailed =>
      rw [threadTrace_true_split, hx]
      simp [exitTail]
    | shutdownWon =>
      rw [threadTrace_true_split, hx]
      simp [exitTail]

/-- C10 witness: on a concrete winning-sentinel run, the event before the
final completion signal records thread id 5. -/
theorem signals_share_pool_event_witness :
    (CThreadPoolEx.dispatchLoop pool0.pvWorkerParam
        [{ dequeue := DequeueResult.delivered 0 OverlappedPtr.shutdownSentinel,
           shutdownFlag := true }]).2 ≠ LoopExit.blocked ∧
    (threadTrace pool0 5 true
        [{ dequeue := DequeueResult.delivered 0 OverlappedPtr.shutdownSentinel,
           shutdownFlag := true }]).reverse.get? 1 =
      some (ThreadEvent.StoreThreadEventId 5) :=
  ⟨by decide,
   (signals_share_pool_event pool0 5 true
     [{ dequeue := DequeueResult.delivered 0 OverlappedPtr.shutdownSentinel,
        shutdownFlag := true }] (by decide)).2.2.2.2⟩

/-- C3 witness: a concrete failed-Initialize run returns 1 immediately. -/
theorem init_failure_exits_one_witness :
    CThreadPoolEx.ThreadProc pool0 5 false [] =
      ([ThreadEvent.Initialize pool0.pvWorkerParam false], some 1, pool0) :=
  (init_failure_exits_one pool0 5 []).1
